import Mathlib

/-!
# Verification of the bref-pulumi deployment composer

Shallow embedding of the two source files:

* `src/infrastructure/function/Function.ts` — the `Function` class: the
  bref-layer registry built in the constructor, layer-name validation, and
  assembly of the lambda's layer list and numeric parameters.
* the stack entry point (`index.ts`) — the deployment composer: conditional
  creation of the VPC, Aurora security group and cluster, credential
  resolution from the secret payload, role policy attachments, the
  environment mapping and the exported identifiers.

External collaborators (the pulumi/aws providers, `JSON.parse`, the secret
store) are modelled as parameters: the values they would resolve are inputs
to the embedded composer, and theorems quantify over them.
-/

namespace Bref

/-! ## Function.ts -/

/-- `functionDefaults` from Function.ts. -/
structure FunctionDefaults where
  memorySize : Int
  phpVersion : String
  architecture : String
deriving Repr, DecidableEq

def functionDefaults : FunctionDefaults :=
  { memorySize := 1024, phpVersion := "8.2", architecture := "x86_64" }

/-- Character-list core of JS `String.prototype.replace` with a string
pattern: only the first occurrence of the pattern is replaced. -/
def replaceFirstAux (pat repl : List Char) : List Char → List Char
  | [] => []
  | c :: cs =>
    if pat.isPrefixOf (c :: cs) then repl ++ (c :: cs).drop pat.length
    else c :: replaceFirstAux pat repl cs

/-- JS `s.replace(pat, repl)` with a string pattern: replaces only the
first occurrence of `pat` in `s` (unlike Lean's `String.replace`, which
replaces every occurrence). -/
def jsReplaceFirst (s pat repl : String) : String :=
  String.mk (replaceFirstAux pat.data repl.data s.data)

/-- `Function.phpLayer`: ARN of the php runtime layer for a php version. -/
def phpLayer (phpVersion : String) : String :=
  "arn:aws:lambda:us-east-1:534081306603:layer:php-" ++
    (jsReplaceFirst phpVersion "." "") ++ ":68"

/-- `Function.consoleLayer`: ARN of the console layer. -/
def consoleLayer : String :=
  "arn:aws:lambda:us-east-1:534081306603:layer:console:78"

/-- `Function.fpmLayer`: ARN of the php-fpm layer for a php version. -/
def fpmLayer (phpVersion : String) : String :=
  "arn:aws:lambda:us-east-1:534081306603:layer:php-" ++
    (jsReplaceFirst phpVersion "." "") ++ "-fpm:68"

/-- The `this.brefLayers` registry object built in the `Function`
constructor: own keys `php`, `console`, `fpm`, in that insertion order. -/
def brefLayersRegistry (phpVersion : String) : List (String × String) :=
  [("php", phpLayer phpVersion),
   ("console", consoleLayer),
   ("fpm", fpmLayer phpVersion)]

/-- Lookup among the registry literal's own keys: the table of genuine
bref layer ARNs the constructor writes. -/
def lookupLayer (phpVersion : String) (name : String) : Option String :=
  (brefLayersRegistry phpVersion).lookup name

/-- The property names a plain JS object literal inherits from
`Object.prototype`: the JS `in` operator answers true for these on
`this.brefLayers` even though they are not own keys of the registry. -/
def objectPrototypeProperties : List String :=
  ["constructor", "hasOwnProperty", "isPrototypeOf",
   "propertyIsEnumerable", "toLocaleString", "toString", "valueOf",
   "__defineGetter__", "__defineSetter__", "__lookupGetter__",
   "__lookupSetter__", "__proto__"]

/-- The `layer in this.brefLayers` membership probe: the JS `in` operator
consults the prototype chain, so it accepts both the registry's own keys
and the properties inherited from `Object.prototype`. -/
def jsInBrefLayers (phpVersion : String) (name : String) : Bool :=
  (lookupLayer phpVersion name).isSome
    || objectPrototypeProperties.contains name

/-- The `this.brefLayers[layerKey]` property access for a name that
passed the `in` probe: an own key yields its registry ARN; an inherited
`Object.prototype` name yields the inherited member — a function object,
not a layer ARN string. No claim observes that junk value, so it is
embedded as a tagged placeholder. -/
def brefLayersAccess (phpVersion : String) (name : String) : String :=
  match lookupLayer phpVersion name with
  | some arn => arn
  | none => "[inherited Object.prototype member " ++ name ++ "]"

/-- The value a successfully built `Function` carries into
`new aws.lambda.Function`: everything the provisioning engine sees. -/
structure FunctionSpec where
  name : String
  handler : String
  environment : Option (List (String × String))
  layers : List String
  timeout : Int
  memorySize : Int
  architecture : String
deriving Repr, DecidableEq

/-- The `for (const layer of brefLayers)` loop of the constructor: each
requested name is tested with the JS `in` operator
(`!(layer in this.brefLayers)` throws
`Layer ${layer} not found in brefLayers`, aborting at the first failing
name); a name that passes the probe has `this.brefLayers[layerKey]`
pushed, in request order. -/
def resolveBrefLayers (phpVersion : String) :
    List String → Except String (List String)
  | [] => .ok []
  | n :: rest =>
    if jsInBrefLayers phpVersion n then
      match resolveBrefLayers phpVersion rest with
      | .ok vals => .ok (brefLayersAccess phpVersion n :: vals)
      | .error e => .error e
    else .error ("Layer " ++ n ++ " not found in brefLayers")

/-- The `Function` constructor. A thrown `Error` is an `Except.error`; on
success the spec handed to `new aws.lambda.Function` is returned. The raw
`layers` parameter may be omitted (`none`); when the bref loop needs it the
constructor initialises it to `[]`, and the lambda receives
`[...(this.layers || [])]`, so the effective base is `layers.getD []`. The
constructor performs no other check on its inputs. -/
def mkFunction (name : String) (handler : String)
    (environment : Option (List (String × String)))
    (phpVersion : String := functionDefaults.phpVersion)
    (brefLayers : List String := [])
    (layers : Option (List String) := none)
    (timeout : Int := 28)
    (memorySize : Int := functionDefaults.memorySize) :
    Except String FunctionSpec :=
  match resolveBrefLayers phpVersion brefLayers with
  | .error e => .error e
  | .ok resolved =>
    .ok { name := name
          handler := handler
          environment := environment
          layers := (layers.getD []) ++ resolved
          timeout := timeout
          memorySize := memorySize
          architecture := functionDefaults.architecture }

/-! ## The deployment composer (the stack entry point) -/

/-- The feature flags read from `pulumi.Config`. `config.getBoolean` yields
`undefined` when a flag is unset; `undefined` and `false` are both JS-falsy
and the program only ever tests flags for truthiness, so a flag is embedded
as a `Bool`. -/
structure Config where
  useMySQL : Bool
  useVPC : Bool
  useOctane : Bool
  useApiWarmer : Bool
  useArtisanScheduler : Bool
deriving Repr, DecidableEq

/-- The structured value the composer reads out of the parsed secret JSON:
`secretJson.username` and `secretJson.password`. -/
structure Credentials where
  username : String
  password : String
deriving Repr, DecidableEq

/-- Values supplied by the external collaborators once the provisioning
engine resolves them: the secret store payload, the behaviour of
`JSON.parse` followed by the `.username`/`.password` field reads (an
external library call, modelled as a function that either throws or yields
the two fields), and the provider-assigned identifiers the composer only
ever forwards. -/
structure External where
  secretString : String
  parseSecret : String → Except String Credentials
  auroraEndpoint : String
  vpcIdValue : String
  auroraClusterIdValue : String
  bucketName : String

/-- The `credentials = auroraSecret.apply(...)` callback: a JS-falsy
`secret.secretString` (the empty string) throws
`Secret string is empty` before any parsing; otherwise the payload is
parsed and the two fields are read. -/
def resolveCredentials (parse : String → Except String Credentials)
    (secretString : String) : Except String Credentials :=
  if secretString = "" then .error "Secret string is empty"
  else parse secretString

/-- Lookup-faithful embedding of the JS object literal
`{ ...written entries of base, ...spread }`: an entry of `base` survives
only when `spread` does not also bind its key, and `spread`'s entries are
kept as written. `List.lookup` on the result agrees with JS property
access on the literal. -/
def jsSpread : List (String × String) → List (String × String) →
    List (String × String)
  | [], spread => spread
  | p :: base, spread =>
    if (spread.lookup p.1).isNone then p :: jsSpread base spread
    else jsSpread base spread

/-- The web app's environment argument `{BREF_LOOP_MAX: 250, ...environment}`
as a function of the spread global `environment` section. -/
def webAppMerge (environment : List (String × String)) :
    List (String × String) :=
  jsSpread [("BREF_LOOP_MAX", "250")] environment

/-- Everything the composer builds that the claims observe: which optional
components were created, the resolved credentials, the named policies
attached to the lambda role, the environment section, the web app's merged
environment, and the exported identifiers. -/
structure Stack where
  vpcCreated : Bool
  securityGroupCreated : Bool
  auroraCreated : Bool
  credentials : Option Credentials
  rolePolicies : List String
  environment : List (String × String)
  webAppEnvironment : List (String × String)
  vpcId : String
  auroraClusterId : String
  auroraClusterEndpoint : String

/-- The condition guarding the VPC block: `useMySQL || useVPC`. -/
def networkRequired (cfg : Config) : Bool :=
  cfg.useMySQL || cfg.useVPC

/-- The condition guarding the database block:
`config.getBoolean("useMySQL") && vpc`. -/
def databaseRequired (cfg : Config) : Bool :=
  cfg.useMySQL && networkRequired cfg

/-- The credential-resolution stage of the composer: when the database
block runs, the secret payload is fetched and resolved (a throw failing
the composition); otherwise `credentials` keeps its initial `null`. -/
def composeCredentials (cfg : Config) (ext : External) :
    Except String (Option Credentials) :=
  if databaseRequired cfg then
    match resolveCredentials ext.parseSecret ext.secretString with
    | .ok c => .ok (some c)
    | .error e => .error e
  else .ok none

/-- The `environment` object literal of the entry point: the database
fields read the nullable `auroraCluster`/`credentials` and fall back to
the empty string when the component was not created. -/
def environmentSection (cfg : Config) (ext : External)
    (credentials : Option Credentials) : List (String × String) :=
  [("FILESYSTEM_DISK", "s3"),
   ("AWS_BUCKET", ext.bucketName),
   ("DB_DATABASE", "laravelTest"),
   ("DB_CONNECTION", "mysql"),
   ("DB_HOST", if databaseRequired cfg then ext.auroraEndpoint else ""),
   ("DB_PORT", "3306"),
   ("DB_USERNAME", match credentials with
                   | some c => c.username
                   | none => ""),
   ("DB_PASSWORD", match credentials with
                   | some c => c.password
                   | none => "")]

/-- The stack the composer hands to the provisioning engine once the
credential stage has produced its (optional) value: component creation
flags, the two `lambdaRole.addPolicy` attachments (`s3` then `vpc`,
both unconditional in the source), the environment section, the web
app's merged environment, and the `?? ""` defaulted exports. -/
def mkStack (cfg : Config) (ext : External)
    (credentials : Option Credentials) : Stack :=
  { vpcCreated := networkRequired cfg
    securityGroupCreated := databaseRequired cfg
    auroraCreated := databaseRequired cfg
    credentials := credentials
    rolePolicies := ["s3", "vpc"]
    environment := environmentSection cfg ext credentials
    webAppEnvironment := webAppMerge (environmentSection cfg ext credentials)
    vpcId := if networkRequired cfg then ext.vpcIdValue else ""
    auroraClusterId :=
      if databaseRequired cfg then ext.auroraClusterIdValue else ""
    auroraClusterEndpoint :=
      if databaseRequired cfg then ext.auroraEndpoint else "" }

/-- The deployment composer, the top-level statement sequence of the stack
entry point: conditional VPC and database creation, credential resolution
(whose throw fails the whole composition), role policies, environment
assembly and exports. -/
def compose (cfg : Config) (ext : External) : Except String Stack :=
  match composeCredentials cfg ext with
  | .error e => .error e
  | .ok credentials => .ok (mkStack cfg ext credentials)

/-! ## Sample inputs used by witnesses -/

/-- Every feature flag off (or equivalently unset). -/
def cfgAllOff : Config :=
  { useMySQL := false, useVPC := false, useOctane := false
    useApiWarmer := false, useArtisanScheduler := false }

/-- Only `useMySQL` set. -/
def cfgMySQL : Config :=
  { cfgAllOff with useMySQL := true }

/-- Only `useVPC` set. -/
def cfgVPC : Config :=
  { cfgAllOff with useVPC := true }

/-- A sample external world with a well-formed secret payload. -/
def extSample : External :=
  { secretString := "payload"
    parseSecret := fun _ => .ok { username := "admin", password := "pw" }
    auroraEndpoint := "aurora.example.internal"
    vpcIdValue := "vpc-123"
    auroraClusterIdValue := "cluster-123"
    bucketName := "bref-example-bucket" }

/-- The sample external world with an empty secret payload. -/
def extEmptySecret : External :=
  { extSample with secretString := "" }

/-! ## Helper lemmas -/

/-- An own registry key passes the `in` probe. -/
theorem jsIn_of_lookup_isSome (pv n : String)
    (h : (lookupLayer pv n).isSome) : jsInBrefLayers pv n = true := by
  simp [jsInBrefLayers, h]

/-- When every requested name is an own registry key, the constructor's
loop succeeds and resolves the names pointwise, in request order. -/
theorem resolveBrefLayers_ok_of_valid (pv : String) :
    ∀ names : List String, (∀ n ∈ names, (lookupLayer pv n).isSome) →
      ∃ arns, resolveBrefLayers pv names = .ok arns ∧
        List.Forall₂ (fun n a => lookupLayer pv n = some a) names arns
  | [], _ => ⟨[], rfl, List.Forall₂.nil⟩
  | n :: rest, h => by
    have hn := h n (List.mem_cons_self n rest)
    cases hl : lookupLayer pv n with
    | none => rw [hl] at hn; simp at hn
    | some arn =>
      obtain ⟨arns, hres, hfa⟩ := resolveBrefLayers_ok_of_valid pv rest
        (fun m hm => h m (List.mem_cons_of_mem _ hm))
      have hin : jsInBrefLayers pv n = true :=
        jsIn_of_lookup_isSome pv n (by simp [hl])
      have hacc : brefLayersAccess pv n = arn := by
        simp [brefLayersAccess, hl]
      refine ⟨arn :: arns, ?_, List.Forall₂.cons hl hfa⟩
      simp [resolveBrefLayers, hin, hres, hacc]

/-- When every requested name passes the `in` probe (own key or inherited
`Object.prototype` property), the constructor's loop does not throw. -/
theorem resolveBrefLayers_ok_of_probe (pv : String) :
    ∀ names : List String, (∀ n ∈ names, jsInBrefLayers pv n = true) →
      ∃ vals, resolveBrefLayers pv names = .ok vals
  | [], _ => ⟨[], rfl⟩
  | n :: rest, h => by
    have hn := h n (List.mem_cons_self n rest)
    obtain ⟨vals, hres⟩ := resolveBrefLayers_ok_of_probe pv rest
      (fun m hm => h m (List.mem_cons_of_mem _ hm))
    exact ⟨brefLayersAccess pv n :: vals,
      by simp [resolveBrefLayers, hn, hres]⟩

/-- A successful run of the constructor's loop certifies that every
requested name passed the `in` probe. -/
theorem resolveBrefLayers_ok_elim (pv : String) :
    ∀ (names arns : List String), resolveBrefLayers pv names = .ok arns →
      ∀ n ∈ names, jsInBrefLayers pv n = true
  | [], arns, _ => by
    intro n hn
    simp at hn
  | m :: rest, arns, h => by
    intro n hn
    by_cases hin : jsInBrefLayers pv m = true
    · rcases List.mem_cons.mp hn with rfl | hn2
      · exact hin
      · cases hres : resolveBrefLayers pv rest with
        | error e => simp [resolveBrefLayers, hin, hres] at h
        | ok arns0 =>
          exact resolveBrefLayers_ok_elim pv rest arns0 hres n hn2
    · have hinf : jsInBrefLayers pv m = false := by simpa using hin
      simp [resolveBrefLayers, hinf] at h

/-- A failed run of the constructor's loop names a requested name that
fails the `in` probe, in the error message. -/
theorem resolveBrefLayers_error_elim (pv : String) :
    ∀ (names : List String) (e : String),
      resolveBrefLayers pv names = .error e →
      ∃ n, n ∈ names ∧ jsInBrefLayers pv n = false ∧
        e = "Layer " ++ n ++ " not found in brefLayers"
  | [], e, h => by simp [resolveBrefLayers] at h
  | n :: rest, e, h => by
    by_cases hin : jsInBrefLayers pv n = true
    · cases hres : resolveBrefLayers pv rest with
      | ok arns => simp [resolveBrefLayers, hin, hres] at h
      | error e0 =>
        have he : e0 = e := by
          simp only [resolveBrefLayers, hin, if_true, hres,
            Except.error.injEq] at h
          exact h
        obtain ⟨m, hm, hinm, hem⟩ :=
          resolveBrefLayers_error_elim pv rest e0 hres
        exact ⟨m, List.mem_cons_of_mem _ hm, hinm, he ▸ hem⟩
    · have hinf : jsInBrefLayers pv n = false := by simpa using hin
      have hmsg : ("Layer " ++ n ++ " not found in brefLayers") = e := by
        simp only [resolveBrefLayers, hinf, Bool.false_eq_true, if_false,
          Except.error.injEq] at h
        exact h
      exact ⟨n, List.mem_cons_self n rest, hinf, hmsg.symm⟩

/-- Property lookup on the embedded object literal: a key bound by the
spread operand takes its spread value; any other key falls back to the
written base entries. -/
theorem jsSpread_lookup :
    ∀ (base spread : List (String × String)) (k : String),
      (jsSpread base spread).lookup k =
        match spread.lookup k with
        | some v => some v
        | none => base.lookup k
  | [], spread, k => by
    cases h : spread.lookup k <;> simp [jsSpread, h]
  | (k0, v0) :: base, spread, k => by
    by_cases hk : k = k0
    · subst hk
      cases h : spread.lookup k with
      | some v => simp [jsSpread, h, jsSpread_lookup base spread k]
      | none => simp [jsSpread, h, List.lookup]
    · have hbeq : (k == k0) = false := beq_false_of_ne hk
      cases h : spread.lookup k0 with
      | some v =>
        rw [show jsSpread ((k0, v0) :: base) spread
              = jsSpread base spread by simp [jsSpread, h]]
        rw [jsSpread_lookup base spread k]
        simp [List.lookup, hbeq]
      | none =>
        rw [show jsSpread ((k0, v0) :: base) spread
              = (k0, v0) :: jsSpread base spread by simp [jsSpread, h]]
        cases hks : spread.lookup k with
        | some v =>
          simp [List.lookup, hbeq, jsSpread_lookup base spread k, hks]
        | none =>
          simp [List.lookup, hbeq, jsSpread_lookup base spread k, hks]

/-- Inversion of a successful composition: the stack is `mkStack` applied
to the credential stage's output, and that output is populated exactly
when the database block ran. -/
theorem compose_ok_inv (cfg : Config) (ext : External) (st : Stack)
    (h : compose cfg ext = .ok st) :
    ∃ c : Option Credentials,
      c.isSome = databaseRequired cfg ∧ st = mkStack cfg ext c := by
  unfold compose at h
  cases hc : composeCredentials cfg ext with
  | error e => rw [hc] at h; exact absurd h (by simp)
  | ok c =>
    rw [hc] at h
    simp only [Except.ok.injEq] at h
    refine ⟨c, ?_, h.symm⟩
    unfold composeCredentials at hc
    by_cases hdb : databaseRequired cfg = true
    · rw [if_pos hdb] at hc
      cases hr : resolveCredentials ext.parseSecret ext.secretString with
      | error e => rw [hr] at hc; exact absurd hc (by simp)
      | ok cr =>
        rw [hr] at hc
        simp only [Except.ok.injEq] at hc
        rw [← hc, hdb]
        rfl
    · rw [if_neg hdb] at hc
      simp only [Except.ok.injEq] at hc
      rw [← hc]
      simp [Bool.not_eq_true] at hdb
      rw [hdb]
      rfl

/-! ## Claim theorems: Function.ts -/

/-- C3 is false as stated: the membership probe is the JS `in` operator,
which consults the prototype chain, so a name inherited from
`Object.prototype` passes it. `toString` is not a key of the layer
registry, yet the constructor does not fail on it — it builds the lambda
anyway, pushing the inherited member instead of a layer ARN. -/
theorem function_layer_prototype_counterexample :
    lookupLayer "8.2" "toString" = none
    ∧ (mkFunction "web" "index.php" none "8.2" ["toString"] none
        28 1024).isOk = true :=
  ⟨rfl, rfl⟩

/-- C3 amended: the constructor's probe accepts a requested name exactly
when it is an own key of the layer registry or a property name inherited
from `Object.prototype`; the constructor succeeds exactly when every
requested name passes that probe — so it fails, with a configuration
error identifying the offending name and without producing a
`FunctionSpec`, precisely when some requested name passes neither — and
in particular every list of genuine registry keys succeeds. -/
theorem function_layer_in_probe_validation (name handler : String)
    (env : Option (List (String × String))) (pv : String)
    (brefLayers : List String) (layers : Option (List String))
    (timeout memorySize : Int) :
    (∀ n, jsInBrefLayers pv n
        = ((lookupLayer pv n).isSome
            || objectPrototypeProperties.contains n))
    ∧ ((mkFunction name handler env pv brefLayers layers
          timeout memorySize).isOk
        ↔ ∀ n ∈ brefLayers, jsInBrefLayers pv n = true)
    ∧ ∀ e, mkFunction name handler env pv brefLayers layers
        timeout memorySize = .error e →
        ∃ n, n ∈ brefLayers ∧ jsInBrefLayers pv n = false ∧
          e = "Layer " ++ n ++ " not found in brefLayers" := by
  refine ⟨fun n => rfl, ⟨?_, ?_⟩, ?_⟩
  · intro hok n hn
    cases hres : resolveBrefLayers pv brefLayers with
    | error e => simp [mkFunction, hres, Except.isOk, Except.toBool] at hok
    | ok arns => exact resolveBrefLayers_ok_elim pv brefLayers arns hres n hn
  · intro hprobe
    obtain ⟨vals, hres⟩ :=
      resolveBrefLayers_ok_of_probe pv brefLayers hprobe
    simp [mkFunction, hres, Except.isOk, Except.toBool]
  · intro e he
    cases hres : resolveBrefLayers pv brefLayers with
    | error e0 =>
      have he0 : e0 = e := by
        simp only [mkFunction, hres, Except.error.injEq] at he
        exact he
      exact he0 ▸ resolveBrefLayers_error_elim pv brefLayers e0 hres
    | ok arns => simp [mkFunction, hres] at he

/-- Closed instance of the amended C3 at a request list containing the
name `bogus`, which is neither an own registry key nor an inherited
`Object.prototype` property. -/
theorem function_layer_in_probe_validation_witness :
    (∀ n, jsInBrefLayers "8.2" n
        = ((lookupLayer "8.2" n).isSome
            || objectPrototypeProperties.contains n))
    ∧ ((mkFunction "web" "index.php" none "8.2" ["php", "bogus"] none
          28 1024).isOk
        ↔ ∀ n ∈ ["php", "bogus"], jsInBrefLayers "8.2" n = true)
    ∧ ∀ e, mkFunction "web" "index.php" none "8.2" ["php", "bogus"] none
        28 1024 = .error e →
        ∃ n, n ∈ ["php", "bogus"] ∧ jsInBrefLayers "8.2" n = false ∧
          e = "Layer " ++ n ++ " not found in brefLayers" :=
  function_layer_in_probe_validation "web" "index.php" none "8.2"
    ["php", "bogus"] none 28 1024

/-- C6: for a request list whose names all exist in the registry, the
constructor succeeds and the resolved identifiers appear in the result
pointwise in the caller-specified order (the resolved block is
`Forall₂`-aligned with the request list), independent of the registry's
own iteration order. -/
theorem function_layers_preserve_order (name handler : String)
    (env : Option (List (String × String))) (pv : String)
    (brefLayers : List String) (layers : Option (List String))
    (timeout memorySize : Int)
    (hvalid : ∀ n ∈ brefLayers, (lookupLayer pv n).isSome) :
    ∃ spec arns,
      mkFunction name handler env pv brefLayers layers
        timeout memorySize = .ok spec ∧
      List.Forall₂ (fun n a => lookupLayer pv n = some a) brefLayers arns ∧
      spec.layers = layers.getD [] ++ arns := by
  obtain ⟨arns, hres, hfa⟩ :=
    resolveBrefLayers_ok_of_valid pv brefLayers hvalid
  have hmk : mkFunction name handler env pv brefLayers layers
      timeout memorySize
      = .ok { name := name, handler := handler, environment := env,
              layers := layers.getD [] ++ arns, timeout := timeout,
              memorySize := memorySize,
              architecture := functionDefaults.architecture } := by
    simp [mkFunction, hres]
  exact ⟨_, arns, hmk, hfa, rfl⟩

/-- Closed instance of C6: the names `fpm, php` (the reverse of the
registry's insertion order) resolve in exactly that requested order. -/
theorem function_layers_preserve_order_witness :
    ∃ spec arns,
      mkFunction "web" "index.php" none "8.2" ["fpm", "php"]
        (some ["caller-layer"]) 28 1024 = .ok spec ∧
      List.Forall₂ (fun n a => lookupLayer "8.2" n = some a)
        ["fpm", "php"] arns ∧
      spec.layers = (some ["caller-layer"]).getD [] ++ arns :=
  function_layers_preserve_order "web" "index.php" none "8.2"
    ["fpm", "php"] (some ["caller-layer"]) 28 1024 (by decide)

/-- C10: with a caller-supplied raw layers list and a non-empty, fully
valid bref layer-name list, the built layer list is exactly the raw
layers followed by the non-empty block of resolved bref identifiers. -/
theorem function_raw_layers_first (name handler : String)
    (env : Option (List (String × String))) (pv : String)
    (brefLayers raw : List String) (timeout memorySize : Int)
    (hne : brefLayers ≠ [])
    (hvalid : ∀ n ∈ brefLayers, (lookupLayer pv n).isSome) :
    ∃ spec arns,
      mkFunction name handler env pv brefLayers (some raw)
        timeout memorySize = .ok spec ∧
      List.Forall₂ (fun n a => lookupLayer pv n = some a) brefLayers arns ∧
      spec.layers = raw ++ arns ∧ arns ≠ [] := by
  obtain ⟨arns, hres, hfa⟩ :=
    resolveBrefLayers_ok_of_valid pv brefLayers hvalid
  have hmk : mkFunction name handler env pv brefLayers (some raw)
      timeout memorySize
      = .ok { name := name, handler := handler, environment := env,
              layers := raw ++ arns, timeout := timeout,
              memorySize := memorySize,
              architecture := functionDefaults.architecture } := by
    simp [mkFunction, hres]
  refine ⟨_, arns, hmk, hfa, rfl, ?_⟩
  intro harns
  exact hne (List.eq_nil_of_length_eq_zero
    (by rw [List.Forall₂.length_eq hfa, harns]; rfl))

/-- Closed instance of C10: one raw layer followed by two resolved bref
layers. -/
theorem function_raw_layers_first_witness :
    ∃ spec arns,
      mkFunction "web" "index.php" none "8.2" ["php", "console"]
        (some ["raw-arn"]) 28 1024 = .ok spec ∧
      List.Forall₂ (fun n a => lookupLayer "8.2" n = some a)
        ["php", "console"] arns ∧
      spec.layers = ["raw-arn"] ++ arns ∧ arns ≠ [] :=
  function_raw_layers_first "web" "index.php" none "8.2"
    ["php", "console"] ["raw-arn"] 28 1024 (by decide) (by decide)

/-- C7 is false as stated: the `Function` constructor performs no bounds
check on timeout or memory size. At timeout `1000000` (far above any
platform function-timeout ceiling) and memory size `-512` (outside any
allowed range) it does not fail: it builds the spec carrying exactly
those values. -/
theorem function_bounds_counterexample :
    ∃ spec, mkFunction "web" "index.php" none "8.2" ["php"] none
        1000000 (-512) = .ok spec ∧
      spec.timeout = 1000000 ∧ spec.memorySize = -512 :=
  ⟨_, rfl, rfl, rfl⟩

/-- C7 amended: the `Function` constructor validates only the bref layer
names; it applies no bound to timeout or memory size, and for any such
values (with valid layer names) it builds a `FunctionSpec` carrying
exactly the given timeout and memory size. Bounds enforcement is left to
the external provisioning platform. -/
theorem function_accepts_any_bounds (name handler : String)
    (env : Option (List (String × String))) (pv : String)
    (brefLayers : List String) (layers : Option (List String))
    (timeout memorySize : Int)
    (hvalid : ∀ n ∈ brefLayers, (lookupLayer pv n).isSome) :
    ∃ spec,
      mkFunction name handler env pv brefLayers layers
        timeout memorySize = .ok spec ∧
      spec.timeout = timeout ∧ spec.memorySize = memorySize := by
  obtain ⟨arns, hres, -⟩ :=
    resolveBrefLayers_ok_of_valid pv brefLayers hvalid
  have hmk : mkFunction name handler env pv brefLayers layers
      timeout memorySize
      = .ok { name := name, handler := handler, environment := env,
              layers := layers.getD [] ++ arns, timeout := timeout,
              memorySize := memorySize,
              architecture := functionDefaults.architecture } := by
    simp [mkFunction, hres]
  exact ⟨_, hmk, rfl, rfl⟩

/-- Closed instance of the amended C7 at another out-of-bounds pair. -/
theorem function_accepts_any_bounds_witness :
    ∃ spec,
      mkFunction "web" "index.php" none "8.2" ["console"] none
        (-1) 99999999 = .ok spec ∧
      spec.timeout = -1 ∧ spec.memorySize = 99999999 :=
  function_accepts_any_bounds "web" "index.php" none "8.2" ["console"]
    none (-1) 99999999 (by decide)

/-! ## Claim theorems: the deployment composer -/

/-- C1: in every successful composition the VPC is created exactly when
`useVPC || useMySQL`, and with both flags off neither the VPC nor the
Aurora security group exists. -/
theorem network_iff_flags (cfg : Config) (ext : External) (st : Stack)
    (h : compose cfg ext = .ok st) :
    st.vpcCreated = (cfg.useVPC || cfg.useMySQL)
    ∧ (cfg.useVPC = false → cfg.useMySQL = false →
        st.vpcCreated = false ∧ st.securityGroupCreated = false) := by
  obtain ⟨c, -, rfl⟩ := compose_ok_inv cfg ext st h
  refine ⟨?_, ?_⟩
  · simp [mkStack, networkRequired, Bool.or_comm]
  · intro hv hm
    simp [mkStack, networkRequired, databaseRequired, hv, hm]

/-- Closed instance of C1 at the all-off configuration. -/
theorem network_iff_flags_witness :
    (mkStack cfgAllOff extSample none).vpcCreated
      = (cfgAllOff.useVPC || cfgAllOff.useMySQL)
    ∧ (cfgAllOff.useVPC = false → cfgAllOff.useMySQL = false →
        (mkStack cfgAllOff extSample none).vpcCreated = false
        ∧ (mkStack cfgAllOff extSample none).securityGroupCreated
            = false) :=
  network_iff_flags cfgAllOff extSample (mkStack cfgAllOff extSample none)
    rfl

/-- C2: in every successful composition the Aurora cluster is created
exactly when `useMySQL` holds and the VPC exists; the security group is
created exactly with the cluster; credentials are resolved exactly when
the cluster is created; and a created cluster always has a VPC (no
half-wired database without a network). -/
theorem database_iff_network (cfg : Config) (ext : External) (st : Stack)
    (h : compose cfg ext = .ok st) :
    st.auroraCreated = (cfg.useMySQL && st.vpcCreated)
    ∧ st.securityGroupCreated = st.auroraCreated
    ∧ st.credentials.isSome = st.auroraCreated
    ∧ (st.auroraCreated = true → st.vpcCreated = true) := by
  obtain ⟨c, hc, rfl⟩ := compose_ok_inv cfg ext st h
  refine ⟨?_, rfl, ?_, ?_⟩
  · simp [mkStack, databaseRequired]
  · simpa [mkStack] using hc
  · intro hdb
    have : databaseRequired cfg = true := hdb
    simp only [databaseRequired, Bool.and_eq_true] at this
    simpa [mkStack] using this.2

/-- Closed instance of C2 at the `useMySQL`-only configuration. -/
theorem database_iff_network_witness :
    (mkStack cfgMySQL extSample
        (some { username := "admin", password := "pw" })).auroraCreated
      = (cfgMySQL.useMySQL
          && (mkStack cfgMySQL extSample
                (some { username := "admin", password := "pw" })).vpcCreated)
    ∧ (mkStack cfgMySQL extSample
        (some { username := "admin", password := "pw" })).securityGroupCreated
      = (mkStack cfgMySQL extSample
          (some { username := "admin", password := "pw" })).auroraCreated
    ∧ (mkStack cfgMySQL extSample
        (some { username := "admin", password := "pw" })).credentials.isSome
      = (mkStack cfgMySQL extSample
          (some { username := "admin", password := "pw" })).auroraCreated
    ∧ ((mkStack cfgMySQL extSample
          (some { username := "admin", password := "pw" })).auroraCreated
            = true →
        (mkStack cfgMySQL extSample
          (some { username := "admin", password := "pw" })).vpcCreated
            = true) :=
  database_iff_network cfgMySQL extSample
    (mkStack cfgMySQL extSample
      (some { username := "admin", password := "pw" })) rfl

/-- C5: with `useMySQL` set and an empty secret payload, the composition
fails with the configuration error `Secret string is empty`; no stack (and
so no populated credentials and no defaulted empty credentials) is ever
produced. -/
theorem empty_secret_fails_composition (cfg : Config) (ext : External)
    (hm : cfg.useMySQL = true) (hs : ext.secretString = "") :
    compose cfg ext = .error "Secret string is empty"
    ∧ ∀ st : Stack, compose cfg ext ≠ .ok st := by
  have hdb : databaseRequired cfg = true := by
    simp [databaseRequired, networkRequired, hm]
  have hcc : composeCredentials cfg ext
      = .error "Secret string is empty" := by
    simp [composeCredentials, hdb, resolveCredentials, hs]
  refine ⟨?_, ?_⟩
  · simp [compose, hcc]
  · intro st
    simp [compose, hcc]

/-- Closed instance of C5 at the `useMySQL`-only configuration with the
empty secret payload. -/
theorem empty_secret_fails_composition_witness :
    compose cfgMySQL extEmptySecret = .error "Secret string is empty"
    ∧ ∀ st : Stack, compose cfgMySQL extEmptySecret ≠ .ok st :=
  empty_secret_fails_composition cfgMySQL extEmptySecret rfl rfl

/-- C8 is false as stated: with every flag off the composition succeeds,
no network exists, and yet the `vpc` network-attachment policy is still
attached to the role (both `addPolicy` calls are unconditional). -/
theorem vpc_policy_without_network_counterexample :
    ∃ st, compose cfgAllOff extSample = .ok st ∧ st.vpcCreated = false ∧
      "vpc" ∈ st.rolePolicies :=
  ⟨mkStack cfgAllOff extSample none, rfl, rfl, by simp [mkStack]⟩

/-- C8 amended: the role receives the object-storage (`s3`) policy
attachment in every configuration, and it also receives the
network-attachment (`vpc`) policy attachment in every configuration,
whether or not the network exists: the attachment list is always
exactly `s3` then `vpc`. -/
theorem role_policies_unconditional (cfg : Config) (ext : External)
    (st : Stack) (h : compose cfg ext = .ok st) :
    st.rolePolicies = ["s3", "vpc"] := by
  obtain ⟨c, -, rfl⟩ := compose_ok_inv cfg ext st h
  rfl

/-- Closed instance of the amended C8 at the `useVPC`-only
configuration. -/
theorem role_policies_unconditional_witness :
    (mkStack cfgVPC extSample none).rolePolicies = ["s3", "vpc"] :=
  role_policies_unconditional cfgVPC extSample
    (mkStack cfgVPC extSample none) rfl

/-- C9: with `useMySQL` and `useVPC` both off, the composition succeeds
and the environment fields `DB_HOST`, `DB_USERNAME`, `DB_PASSWORD` are
the empty string, and the exported network identifier, cluster identifier
and cluster endpoint are the empty string (present, not omitted). -/
theorem absent_components_empty_strings (cfg : Config) (ext : External)
    (st : Stack) (hm : cfg.useMySQL = false) (hv : cfg.useVPC = false)
    (h : compose cfg ext = .ok st) :
    st.environment.lookup "DB_HOST" = some ""
    ∧ st.environment.lookup "DB_USERNAME" = some ""
    ∧ st.environment.lookup "DB_PASSWORD" = some ""
    ∧ st.vpcId = "" ∧ st.auroraClusterId = ""
    ∧ st.auroraClusterEndpoint = "" := by
  obtain ⟨c, hc, rfl⟩ := compose_ok_inv cfg ext st h
  have hdb : databaseRequired cfg = false := by
    simp [databaseRequired, networkRequired, hm, hv]
  have hnet : networkRequired cfg = false := by
    simp [networkRequired, hm, hv]
  have hcnone : c = none := by
    rw [hdb] at hc
    exact Option.not_isSome_iff_eq_none.mp (by simp [hc])
  subst hcnone
  refine ⟨?_, ?_, ?_, ?_, ?_, ?_⟩ <;>
    simp [mkStack, environmentSection, hdb, hnet, List.lookup]

/-- Closed instance of C9 at the all-off configuration. -/
theorem absent_components_empty_strings_witness :
    (mkStack cfgAllOff extSample none).environment.lookup "DB_HOST"
      = some ""
    ∧ (mkStack cfgAllOff extSample none).environment.lookup "DB_USERNAME"
      = some ""
    ∧ (mkStack cfgAllOff extSample none).environment.lookup "DB_PASSWORD"
      = some ""
    ∧ (mkStack cfgAllOff extSample none).vpcId = ""
    ∧ (mkStack cfgAllOff extSample none).auroraClusterId = ""
    ∧ (mkStack cfgAllOff extSample none).auroraClusterEndpoint = "" :=
  absent_components_empty_strings cfgAllOff extSample
    (mkStack cfgAllOff extSample none) rfl rfl rfl

/-- C4 is false as stated: in the web app's merge
`{BREF_LOOP_MAX: 250, ...environment}` the spread global section is
written last, so on a key present in both mappings the global section's
value wins, not the per-unit entry's. Concretely, a global section
binding `BREF_LOOP_MAX` to `999` yields `999`, not the per-unit `250`. -/
theorem webapp_merge_counterexample :
    (webAppMerge [("BREF_LOOP_MAX", "999")]).lookup "BREF_LOOP_MAX"
      = some "999"
    ∧ (webAppMerge [("BREF_LOOP_MAX", "999")]).lookup "BREF_LOOP_MAX"
      ≠ some "250" := by
  refine ⟨rfl, ?_⟩
  intro h
  simp [webAppMerge, jsSpread, List.lookup] at h

/-- C4 amended: the merge is right-biased toward its spread operand,
which is the global environment section (not the per-unit entry): a key
bound by the spread global section takes the global value. In the actual
composition the global section never binds `BREF_LOOP_MAX`, so the merged
web environment maps `BREF_LOOP_MAX` to `250` and agrees with the global
section on every key the global section binds. -/
theorem webapp_merge_spread_bias :
    (∀ (base spread : List (String × String)) (k : String),
      (spread.lookup k).isSome →
        (jsSpread base spread).lookup k = spread.lookup k)
    ∧ ∀ (cfg : Config) (ext : External) (st : Stack),
        compose cfg ext = .ok st →
          st.environment.lookup "BREF_LOOP_MAX" = none
          ∧ st.webAppEnvironment.lookup "BREF_LOOP_MAX" = some "250"
          ∧ ∀ q v, st.environment.lookup q = some v →
              st.webAppEnvironment.lookup q = some v := by
  constructor
  · intro base spread k hk
    rw [jsSpread_lookup]
    cases h : spread.lookup k with
    | none => rw [h] at hk; simp at hk
    | some v => rfl
  · intro cfg ext st h
    obtain ⟨c, -, rfl⟩ := compose_ok_inv cfg ext st h
    have henv : (environmentSection cfg ext c).lookup "BREF_LOOP_MAX"
        = none := by
      simp [environmentSection, List.lookup]
    refine ⟨henv, ?_, ?_⟩
    · show (webAppMerge
          (environmentSection cfg ext c)).lookup "BREF_LOOP_MAX"
        = some "250"
      rw [webAppMerge, jsSpread_lookup, henv]
      rfl
    · intro q v hq
      show (webAppMerge (environmentSection cfg ext c)).lookup q = some v
      have hq0 : (environmentSection cfg ext c).lookup q = some v := hq
      rw [webAppMerge, jsSpread_lookup, hq0]

/-- Closed instance of the amended C4 at the `useVPC`-only
configuration. -/
theorem webapp_merge_spread_bias_witness :
    (mkStack cfgVPC extSample none).environment.lookup "BREF_LOOP_MAX"
      = none
    ∧ (mkStack cfgVPC extSample none).webAppEnvironment.lookup
        "BREF_LOOP_MAX" = some "250" :=
  ⟨(webapp_merge_spread_bias.2 cfgVPC extSample
      (mkStack cfgVPC extSample none) rfl).1,
   (webapp_merge_spread_bias.2 cfgVPC extSample
      (mkStack cfgVPC extSample none) rfl).2.1⟩

end Bref
